import Mathlib

/-
Shallow embedding of the LocNet network layer (src/src/network.cpp) of the
iop-location-based-network repository, together with theorems checking the
natural-language specification against it.

The embedding models the pure content of the session framing
(ProtoBufTcpStreamSession::ReceiveMessage / SendMessage and
GetMessageSizeFromHeader), the per-session request dispatch loop of
ProtoBufDispatchingTcpServer::AsyncAcceptHandler, and the change-notification
listener ProtoBufTcpStreamChangeListener.  Byte streams are modelled as lists
of natural numbers below 2^8 together with the eof/fail flags of the C++
iostream; thrown LocationNetworkError exceptions become Except errors.
-/

set_option autoImplicit false

namespace LocNet

/-- Error codes of `LocationNetworkError` (error.hpp of the repository, used
throughout src/src/network.cpp). -/
inductive ErrorCode where
  | errorBadRequest
  | errorBadResponse
  | errorConnection
  | errorProtocolViolation
  | errorInvalidState
  | errorInternal
  | errorUnsupported
deriving DecidableEq, Repr

/-- Wire status codes `iop.locnet.Status` of the response envelope
(spec section 6). -/
inductive Status where
  | statusOk
  | errorBadRequest
  | errorBadResponse
  | errorConnection
  | errorProtocolViolation
  | errorInvalidState
  | errorInternal
  | errorUnsupported
deriving DecidableEq, Repr

namespace Converter

/-- Modelled from the spec: `Converter::ToProtoBuf(ErrorCode)` lives in
messaging.cpp, which is not under src/.  Spec section 7: every error code is
propagated as the corresponding wire StatusCode. -/
def ToProtoBuf : ErrorCode → Status
  | .errorBadRequest => .errorBadRequest
  | .errorBadResponse => .errorBadResponse
  | .errorConnection => .errorConnection
  | .errorProtocolViolation => .errorProtocolViolation
  | .errorInvalidState => .errorInvalidState
  | .errorInternal => .errorInternal
  | .errorUnsupported => .errorUnsupported

end Converter

/-- Identity tuple of a node (spec section 3): opaque id plus contact data. -/
structure NodeProfile where
  id : String
  address : String
  nodePort : Nat
  clientPort : Nat
deriving DecidableEq, Repr

/-- Geographic position of a node.  The claims under study never compute with
coordinates, so they are carried as plain integers (scaled degrees). -/
structure GpsLocation where
  latitude : Int
  longitude : Int
deriving DecidableEq, Repr

/-- NodeProfile plus location (spec section 3). -/
structure NodeInfo where
  profile : NodeProfile
  location : GpsLocation
deriving DecidableEq, Repr

/-- Relation of a stored entry to the local node (spec section 3). -/
inductive NodeRelationType where
  | colleague
  | neighbour
  | self
deriving DecidableEq, Repr

/-- Which side originated the relationship (spec section 3). -/
inductive NodeContactRoleType where
  | initiator
  | acceptor
deriving DecidableEq, Repr

/-- Database entry for a known node: NodeInfo + relation type + role
(spec section 3; declared in the repository headers used by network.cpp). -/
structure NodeDbEntry extends NodeInfo where
  relationType : NodeRelationType
  roleType : NodeContactRoleType
deriving DecidableEq, Repr

/-- Modelled from the spec: the protobuf payload taxonomy
(spec section 6) is generated code not under src/.  The keepalive request of
the LocalService interface, with its `keepaliveandsendupdates` flag read at
network.cpp:175. -/
structure GetNeighbourNodesRequest where
  keepaliveAndSendUpdates : Bool
deriving DecidableEq, Repr

/-- Modelled from the spec: one entry of a NeighbourhoodChanged notification,
a choice of added / updated / removed-id (spec section 6 message taxonomy).
The field names follow the accessors used at network.cpp:452,476,500. -/
inductive NeighbourhoodChange where
  | addedNodeInfo (info : NodeInfo)
  | updatedNodeInfo (info : NodeInfo)
  | removedNodeId (id : String)
deriving DecidableEq, Repr

/-- Modelled from the spec: LocalService request payload variants
(spec section 6). -/
inductive LocalServiceRequest where
  | registerService
  | deregisterService
  | getNeighbourNodes (req : GetNeighbourNodesRequest)
  | neighbourhoodChanged (changes : List NeighbourhoodChange)
deriving DecidableEq, Repr

/-- Modelled from the spec: NodeToNode request payload variants
(spec section 6).  Their arguments play no role in the claims under study. -/
inductive RemoteNodeRequest where
  | getNodeInfo
  | getNodeCount
  | getRandomNodes
  | getClosestNodesByDistance
  | acceptColleague
  | renewColleague
  | acceptNeighbour
  | renewNeighbour
deriving DecidableEq, Repr

/-- Modelled from the spec: the request envelope payload, one of the three
interface families (spec section 6).  `has_localservice` etc. at
network.cpp:173 test which variant is present. -/
inductive Request where
  | localService (req : LocalServiceRequest)
  | remoteNode (req : RemoteNodeRequest)
  | client
deriving DecidableEq, Repr

/-- Response envelope: status plus details string (spec section 6; the result
payload plays no role in the claims under study). -/
structure Response where
  status : Status
  details : String
deriving DecidableEq, Repr

/-- The protobuf `iop.locnet.Message`: correlation id plus an optional request
and an optional response, mirroring the `has_request` / `has_response`
accessors used in network.cpp. -/
structure MessageBody where
  id : Nat
  request : Option Request
  response : Option Response
deriving DecidableEq, Repr

/-- The protobuf `iop.locnet.MessageWithHeader`: a numeric header field (set
by SendMessage) and an optional body. -/
structure MessageWithHeader where
  header : Nat
  body : Option MessageBody
deriving DecidableEq, Repr

/-- network.cpp:18, maximal allowed body size of a frame: 1 MiB. -/
def MaxMessageSize : Nat := 1024 * 1024

/-- network.cpp:22, size of the frame header in bytes. -/
def MessageHeaderSize : Nat := 5

/-- network.cpp:23, offset of the body length inside the frame header. -/
def MessageSizeOffset : Nat := 1

/-- network.cpp:259-264, `GetMessageSizeFromHeader`: reads four bytes as a
little-endian unsigned 32-bit value (the shifts 8/16/24 of the source are the
factors 256/65536/16777216; the result is a uint32, hence the reduction
modulo 4294967296, which is the identity on genuine byte inputs). -/
def GetMessageSizeFromHeader (bytes : List Nat) : Nat :=
  (bytes.getD 0 0 + bytes.getD 1 0 * 256 + bytes.getD 2 0 * 65536 +
    bytes.getD 3 0 * 16777216) % 4294967296

/-- State of the session's C++ iostream on the receiving side: the bytes still
pending to be read, and the eofbit / failbit flags. -/
structure StreamState where
  pending : List Nat
  eofFlag : Bool
  failFlag : Bool
deriving DecidableEq, Repr

/-- One `_stream.read(buf, n)` call: a read on a failed stream does nothing;
a read that finds at least `n` pending bytes extracts them; a read that runs
out of input extracts what is there and sets both eofbit and failbit. -/
def streamRead (s : StreamState) (n : Nat) : List Nat × StreamState :=
  if s.failFlag then ([], s)
  else if n ≤ s.pending.length then
    (s.pending.take n,
     { pending := s.pending.drop n, eofFlag := s.eofFlag, failFlag := false })
  else
    (s.pending, { pending := [], eofFlag := true, failFlag := true })

/-- network.cpp:268-304, `ProtoBufTcpStreamSession::ReceiveMessage`: check the
eof flag, read the 5-byte header, decode the body size from offset 1, enforce
the 1 MiB limit, read the body.  The thrown `LocationNetworkError`s become
`Except.error` codes; the successfully received frame bytes (header plus
body) are returned together with the remaining stream. -/
def receiveMessage (s : StreamState) :
    Except ErrorCode (List Nat × StreamState) :=
  if s.eofFlag then .error .errorInvalidState
  else
    let readHeader := streamRead s MessageHeaderSize
    if readHeader.2.failFlag then .error .errorProtocolViolation
    else
      let bodySize := GetMessageSizeFromHeader (readHeader.1.drop MessageSizeOffset)
      if MaxMessageSize < bodySize then .error .errorBadRequest
      else
        let readBody := streamRead readHeader.2 bodySize
        if readBody.2.failFlag then .error .errorProtocolViolation
        else .ok (readHeader.1 ++ readBody.1, readBody.2)

/-- The four bytes of a 32-bit value in little-endian order. -/
def toLittleEndian32 (n : Nat) : List Nat :=
  [n % 256, n / 256 % 256, n / 65536 % 256, n / 16777216 % 256]

/-- Modelled from the spec: the serialization of a `MessageWithHeader` is
protobuf-generated code not under src/.  Spec section 4.3 fixes the frame
layout: byte 0 is the version tag (constant 1), bytes 1..4 carry the header
value (the body length) little-endian, bytes 5.. are the opaque serialized
body. -/
def serializeMessageWithHeader (headerValue : Nat) (bodyBytes : List Nat) :
    List Nat :=
  1 :: (toLittleEndian32 headerValue ++ bodyBytes)

/-- Total serialized size of a `MessageWithHeader` whose header field is set:
the 5 header bytes plus the serialized body (`message.ByteSize()` at
network.cpp:311). -/
def messageByteSize (bodyBytes : List Nat) : Nat :=
  MessageHeaderSize + bodyBytes.length

/-- network.cpp:308-317, `ProtoBufTcpStreamSession::SendMessage`: first
`set_header(1)` (making the header field present so that `ByteSize()` counts
its 5 bytes), then `set_header(ByteSize() - MessageHeaderSize)` overwriting
the field with the body length, then write the serialized frame to the
stream.  `bodyBytes` is the opaque serialization of the message body; the
result is the mutated message together with the emitted frame. -/
def SendMessage (message : MessageWithHeader) (bodyBytes : List Nat) :
    MessageWithHeader × List Nat :=
  let withVersion : MessageWithHeader := { message with header := 1 }
  let withLength : MessageWithHeader :=
    { withVersion with header := messageByteSize bodyBytes - MessageHeaderSize }
  (withLength, serializeMessageWithHeader withLength.header bodyBytes)

/-- Outcome of one `dispatcher->Dispatch(request)` call (network.cpp:168) as
seen by the request loop: a returned response, a thrown
`LocationNetworkError`, or any other thrown exception. -/
inductive DispatchResult where
  | ok (response : Response)
  | locNetError (code : ErrorCode) (message : String)
  | otherError (message : String)
deriving DecidableEq, Repr

/-- Outcome of one `session->ReceiveMessage()` call as seen by the request
loop: a received message, or a thrown `LocationNetworkError` carrying a code
and a message string. -/
abbrev RecvResult := Except (ErrorCode × String) MessageWithHeader

/-- network.cpp:200-205: the response frame built by the request loop, with
the response payload and the echoed message id (the protobuf header field is
still at its default 0 until SendMessage sets it). -/
def responseMessage (messageId : Nat) (resp : Response) : MessageWithHeader :=
  { header := 0
    body := some { id := messageId, request := none, response := some resp } }

/-- network.cpp:172-175: the chain of `has_body`, `has_request`,
`has_localservice`, `has_getneighbournodes` tests followed by the
`keepaliveandsendupdates` flag. -/
def isKeepAliveGetNeighbourNodes (m : MessageWithHeader) : Bool :=
  match m.body with
  | none => false
  | some b =>
    match b.request with
    | some (.localService (.getNeighbourNodes r)) => r.keepaliveAndSendUpdates
    | _ => false

/-- One iteration of the request loop of
`ProtoBufDispatchingTcpServer::AsyncAcceptHandler` (network.cpp:151-206):
receive a request, validate the envelope, dispatch it, catch thrown errors,
and build the response frame.  Returns the frame sent for this iteration and
the resulting `endMessageLoop` flag. -/
def loopStep (dispatch : Request → DispatchResult) (recv : RecvResult) :
    MessageWithHeader × Bool :=
  match recv with
  | .error e =>
    (responseMessage 0 { status := Converter.ToProtoBuf e.1, details := e.2 }, true)
  | .ok m =>
    match m.body with
    | none =>
      (responseMessage 0
        { status := Converter.ToProtoBuf .errorBadRequest
          details := "Missing message body or request" }, true)
    | some b =>
      match b.request with
      | none =>
        (responseMessage 0
          { status := Converter.ToProtoBuf .errorBadRequest
            details := "Missing message body or request" }, true)
      | some req =>
        match dispatch req with
        | .ok resp =>
          (responseMessage b.id { resp with status := .statusOk },
           isKeepAliveGetNeighbourNodes m)
        | .locNetError code msg =>
          (responseMessage b.id
            { status := Converter.ToProtoBuf code, details := msg }, true)
        | .otherError msg =>
          (responseMessage b.id
            { status := Status.errorInternal, details := msg }, true)

/-- The request loop itself (network.cpp:152: `while (!endMessageLoop &&
!_shutdownRequested)`, with no shutdown requested), run over the sequence of
receive outcomes the session will deliver.  Returns the frames the loop sends
and the receive outcomes it never consumes. -/
def messageLoop (dispatch : Request → DispatchResult) :
    List RecvResult → List MessageWithHeader × List RecvResult
  | [] => ([], [])
  | r :: rest =>
    let step := loopStep dispatch r
    if step.2 then ([step.1], rest)
    else
      let tail := messageLoop dispatch rest
      (step.1 :: tail.1, tail.2)

namespace Converter

/-- Modelled from the spec: `Converter::FillProtoBuf(info, node)`
(messaging.cpp, not under src/) copies the NodeInfo part of a database entry
into the wire NodeInfo message. -/
def FillProtoBuf (node : NodeDbEntry) : NodeInfo := node.toNodeInfo

end Converter

/-- network.cpp:449-453: the notification request marshalled by
`ProtoBufTcpStreamChangeListener::AddedNode`, one NeighbourhoodChange with
the `addednodeinfo` field filled from the entry. -/
def AddedNodeRequest (node : NodeDbEntry) : Request :=
  .localService (.neighbourhoodChanged
    [.addedNodeInfo (Converter.FillProtoBuf node)])

/-- network.cpp:473-477: the notification request marshalled by
`ProtoBufTcpStreamChangeListener::UpdatedNode`: the change is written with
`mutable_addednodeinfo`, exactly as in AddedNode. -/
def UpdatedNodeRequest (node : NodeDbEntry) : Request :=
  .localService (.neighbourhoodChanged
    [.addedNodeInfo (Converter.FillProtoBuf node)])

/-- network.cpp:497-500: the notification request marshalled by
`ProtoBufTcpStreamChangeListener::RemovedNode`, one NeighbourhoodChange with
the `removednodeid` field set to the entry's node id. -/
def RemovedNodeRequest (node : NodeDbEntry) : Request :=
  .localService (.neighbourhoodChanged [.removedNodeId node.profile.id])

/-- Mutable state of a `ProtoBufTcpStreamChangeListener`: its stored session
id (`_sessionId`), cleared by Deregister. -/
structure ChangeListenerState where
  sessionId : String
deriving DecidableEq, Repr

/-- network.cpp:426-434, `ProtoBufTcpStreamChangeListener::Deregister`: when
the stored session id is non-empty, call `RemoveListener(_sessionId)` on the
local service and clear the id; otherwise do nothing.  Returns the new state
and the list of session ids passed to RemoveListener. -/
def Deregister (st : ChangeListenerState) : ChangeListenerState × List String :=
  if !st.sessionId.isEmpty then ({ sessionId := "" }, [st.sessionId])
  else (st, [])

/-- A sequence of `n` consecutive Deregister calls (as performed by explicit
deregistration followed by the destructor, network.cpp:420-424), collecting
every RemoveListener invocation. -/
def deregisterTimes : Nat → ChangeListenerState → ChangeListenerState × List String
  | 0, st => (st, [])
  | n + 1, st =>
    let first := Deregister st
    let rest := deregisterTimes n first.1
    (rest.1, first.2 ++ rest.2)

/-- network.cpp:443-464, `ProtoBufTcpStreamChangeListener::AddedNode`: only
for entries with relation type Neighbour is a notification request built and
dispatched; when the dispatch throws, the listener deregisters itself.
`dispatchFails` models the outcome of the `_dispatcher->Dispatch(req)` call
(whose response is otherwise ignored by the source).  Returns the new state,
the requests dispatched on the session, and the RemoveListener calls made. -/
def AddedNode (st : ChangeListenerState) (node : NodeDbEntry)
    (dispatchFails : Bool) : ChangeListenerState × List Request × List String :=
  if node.relationType = .neighbour then
    if dispatchFails then
      let dereg := Deregister st
      (dereg.1, [AddedNodeRequest node], dereg.2)
    else (st, [AddedNodeRequest node], [])
  else (st, [], [])

/-- network.cpp:467-488, `ProtoBufTcpStreamChangeListener::UpdatedNode`: same
structure as AddedNode, guarded by relation type Neighbour. -/
def UpdatedNode (st : ChangeListenerState) (node : NodeDbEntry)
    (dispatchFails : Bool) : ChangeListenerState × List Request × List String :=
  if node.relationType = .neighbour then
    if dispatchFails then
      let dereg := Deregister st
      (dereg.1, [UpdatedNodeRequest node], dereg.2)
    else (st, [UpdatedNodeRequest node], [])
  else (st, [], [])

/-- network.cpp:491-511, `ProtoBufTcpStreamChangeListener::RemovedNode`: same
structure as AddedNode, guarded by relation type Neighbour. -/
def RemovedNode (st : ChangeListenerState) (node : NodeDbEntry)
    (dispatchFails : Bool) : ChangeListenerState × List Request × List String :=
  if node.relationType = .neighbour then
    if dispatchFails then
      let dereg := Deregister st
      (dereg.1, [RemovedNodeRequest node], dereg.2)
    else (st, [RemovedNodeRequest node], [])
  else (st, [], [])

/-- A concrete database entry with relation type Neighbour, used as input for
the marshalling theorems. -/
def sampleNeighbourEntry : NodeDbEntry :=
  { profile :=
      { id := "node1", address := "127.0.0.1", nodePort := 16980, clientPort := 16981 }
    location := { latitude := 47, longitude := 19 }
    relationType := .neighbour
    roleType := .acceptor }

/-- Decoding the four little-endian bytes of a value below 2^32, followed by
arbitrary further bytes, recovers the value. -/
lemma getMessageSize_toLittleEndian32 (n : Nat) (tail : List Nat)
    (h : n < 4294967296) :
    GetMessageSizeFromHeader (toLittleEndian32 n ++ tail) = n := by
  simp [GetMessageSizeFromHeader, toLittleEndian32, List.getD]
  omega

/-- C7: GetMessageSizeFromHeader decodes its four input bytes as the
little-endian unsigned 32-bit value b0 + b1*256 + b2*65536 + b3*16777216. -/
theorem getMessageSizeFromHeader_littleEndian (b0 b1 b2 b3 : Nat)
    (h0 : b0 < 256) (h1 : b1 < 256) (h2 : b2 < 256) (h3 : b3 < 256) :
    GetMessageSizeFromHeader [b0, b1, b2, b3] =
      b0 + b1 * 256 + b2 * 65536 + b3 * 16777216 := by
  simp [GetMessageSizeFromHeader, List.getD]
  omega

/-- Concrete instance of C7 at the byte quadruple (4, 3, 2, 1). -/
theorem getMessageSizeFromHeader_littleEndian_witness :
    GetMessageSizeFromHeader [4, 3, 2, 1] =
      4 + 3 * 256 + 2 * 65536 + 1 * 16777216 :=
  getMessageSizeFromHeader_littleEndian 4 3 2 1
    (by decide) (by decide) (by decide) (by decide)

/-- C4: every frame emitted by SendMessage has the constant version tag 1 in
byte 0 and the body length, little-endian, in bytes 1..4; writing the length
into the header leaves the version tag of the frame intact, and the header
field of the mutated message holds exactly the body length. -/
theorem sendMessage_version_tag_and_length (m : MessageWithHeader)
    (bodyBytes : List Nat) (h : bodyBytes.length < 4294967296) :
    (SendMessage m bodyBytes).2.getD 0 0 = 1 ∧
    ((SendMessage m bodyBytes).2.drop 1).take 4 =
      toLittleEndian32 bodyBytes.length ∧
    GetMessageSizeFromHeader ((SendMessage m bodyBytes).2.drop MessageSizeOffset) =
      bodyBytes.length ∧
    (SendMessage m bodyBytes).1.header = bodyBytes.length := by
  have hlen : messageByteSize bodyBytes - MessageHeaderSize = bodyBytes.length := by
    simp [messageByteSize, MessageHeaderSize]
  refine ⟨?_, ?_, ?_, ?_⟩
  · simp [SendMessage, serializeMessageWithHeader]
  · simp [SendMessage, serializeMessageWithHeader, hlen, toLittleEndian32]
  · simp only [SendMessage, serializeMessageWithHeader, hlen, MessageSizeOffset,
      List.drop_succ_cons, List.drop_zero]
    exact getMessageSize_toLittleEndian32 _ _ h
  · simp [SendMessage, hlen]

/-- Concrete instance of C4 for a three-byte body. -/
theorem sendMessage_version_tag_and_length_witness :
    (SendMessage { header := 0, body := none } [7, 8, 9]).2.getD 0 0 = 1 ∧
    ((SendMessage { header := 0, body := none } [7, 8, 9]).2.drop 1).take 4 =
      toLittleEndian32 (List.length [7, 8, 9]) ∧
    GetMessageSizeFromHeader
      ((SendMessage { header := 0, body := none } [7, 8, 9]).2.drop
        MessageSizeOffset) = List.length [7, 8, 9] ∧
    (SendMessage { header := 0, body := none } [7, 8, 9]).1.header =
      List.length [7, 8, 9] :=
  sendMessage_version_tag_and_length { header := 0, body := none } [7, 8, 9]
    (by decide)

/-- C1, the code evaluated at the failing input: for the Neighbour entry
sampleNeighbourEntry, UpdatedNode marshals the change through the
addednodeinfo field, producing exactly the request AddedNode produces, and
not the distinct updatednodeinfo variant the spec requires. -/
theorem updatedNode_uses_added_variant :
    UpdatedNodeRequest sampleNeighbourEntry = AddedNodeRequest sampleNeighbourEntry ∧
    UpdatedNodeRequest sampleNeighbourEntry =
      Request.localService (.neighbourhoodChanged
        [.addedNodeInfo sampleNeighbourEntry.toNodeInfo]) ∧
    UpdatedNodeRequest sampleNeighbourEntry ≠
      Request.localService (.neighbourhoodChanged
        [.updatedNodeInfo sampleNeighbourEntry.toNodeInfo]) := by
  refine ⟨rfl, rfl, ?_⟩
  decide

/-- A read on an unfailed stream that holds enough pending bytes extracts
them and leaves the flags clear. -/
lemma streamRead_all (pending : List Nat) (eof : Bool) (n : Nat)
    (h : n ≤ pending.length) :
    streamRead ⟨pending, eof, false⟩ n =
      (pending.take n, ⟨pending.drop n, eof, false⟩) := by
  simp [streamRead, h]

/-- A read on an unfailed stream that holds too few pending bytes extracts
what is there and sets the eof and fail flags. -/
lemma streamRead_fail (pending : List Nat) (eof : Bool) (n : Nat)
    (h : pending.length < n) :
    streamRead ⟨pending, eof, false⟩ n = (pending, ⟨[], true, true⟩) := by
  simp [streamRead, Nat.not_le.mpr h]

/-- C3: ReceiveMessage accepts every frame whose header-encoded body size is
at most MaxMessageSize = 1 MiB and reads its body off the stream; for every
body size strictly greater than the limit it fails with BadRequest; and the
request loop, on catching such a BadRequest error, sends the error response
and terminates, consuming nothing further on the session. -/
theorem receiveMessage_enforces_size_limit (h0 h1 h2 h3 h4 : Nat)
    (rest : List Nat) :
    (GetMessageSizeFromHeader [h1, h2, h3, h4] ≤ MaxMessageSize →
      GetMessageSizeFromHeader [h1, h2, h3, h4] ≤ rest.length →
      receiveMessage ⟨h0 :: h1 :: h2 :: h3 :: h4 :: rest, false, false⟩ =
        .ok (h0 :: h1 :: h2 :: h3 :: h4 ::
               rest.take (GetMessageSizeFromHeader [h1, h2, h3, h4]),
             ⟨rest.drop (GetMessageSizeFromHeader [h1, h2, h3, h4]),
              false, false⟩)) ∧
    (MaxMessageSize < GetMessageSizeFromHeader [h1, h2, h3, h4] →
      receiveMessage ⟨h0 :: h1 :: h2 :: h3 :: h4 :: rest, false, false⟩ =
        .error .errorBadRequest) ∧
    (∀ (w : String) (dispatch : Request → DispatchResult)
       (more : List RecvResult),
      messageLoop dispatch (.error (.errorBadRequest, w) :: more) =
        ([responseMessage 0
            { status := Converter.ToProtoBuf .errorBadRequest, details := w }],
         more)) := by
  have h5 : MessageHeaderSize ≤ (h0 :: h1 :: h2 :: h3 :: h4 :: rest).length := by
    simp [MessageHeaderSize]
  have htake : (h0 :: h1 :: h2 :: h3 :: h4 :: rest).take MessageHeaderSize =
      [h0, h1, h2, h3, h4] := rfl
  have hdrop : (h0 :: h1 :: h2 :: h3 :: h4 :: rest).drop MessageHeaderSize =
      rest := rfl
  have hdrop1 : ([h0, h1, h2, h3, h4] : List Nat).drop MessageSizeOffset =
      [h1, h2, h3, h4] := rfl
  refine ⟨?_, ?_, ?_⟩
  · intro hle hfit
    have hnot : ¬ (MaxMessageSize < GetMessageSizeFromHeader [h1, h2, h3, h4]) :=
      not_lt.mpr hle
    simp [receiveMessage, streamRead_all _ _ _ h5, htake, hdrop, hdrop1,
      streamRead_all _ _ _ hfit, hnot]
  · intro hgt
    simp [receiveMessage, streamRead_all _ _ _ h5, htake, hdrop, hdrop1, hgt]
  · intro w dispatch more
    simp [messageLoop, loopStep]

/-- Concrete instances of C3: a frame announcing a zero-byte body is
accepted, a frame announcing a body of 1 MiB + 1 = 1048577 bytes is rejected
with BadRequest, and the loop stops on the resulting error. -/
theorem receiveMessage_enforces_size_limit_witness :
    receiveMessage ⟨[9, 0, 0, 0, 0], false, false⟩ =
      .ok ([9, 0, 0, 0, 0], ⟨[], false, false⟩) ∧
    receiveMessage ⟨[9, 1, 0, 16, 0], false, false⟩ =
      .error .errorBadRequest ∧
    messageLoop (fun _ => .otherError "unused")
        [.error (.errorBadRequest, "too big")] =
      ([responseMessage 0
          { status := Converter.ToProtoBuf .errorBadRequest,
            details := "too big" }], []) := by
  have h := receiveMessage_enforces_size_limit 9 0 0 0 0 []
  have hbig := receiveMessage_enforces_size_limit 9 1 0 16 0 []
  refine ⟨?_, ?_, ?_⟩
  · have := h.1 (by decide) (by decide)
    simpa using this
  · exact hbig.2.1 (by decide)
  · exact hbig.2.2 "too big" (fun _ => .otherError "unused") []

/-- C5: ReceiveMessage fails with InvalidState when the stream is already at
end-of-file on entry; it fails with ProtocolViolation when the 5-byte header
read comes up short, and also when the body read delivers fewer bytes than
the header announced. -/
theorem receiveMessage_failure_modes :
    (∀ s : StreamState, s.eofFlag = true →
      receiveMessage s = .error .errorInvalidState) ∧
    (∀ pending : List Nat, pending.length < MessageHeaderSize →
      receiveMessage ⟨pending, false, false⟩ = .error .errorProtocolViolation) ∧
    (∀ (h0 h1 h2 h3 h4 : Nat) (rest : List Nat),
      GetMessageSizeFromHeader [h1, h2, h3, h4] ≤ MaxMessageSize →
      rest.length < GetMessageSizeFromHeader [h1, h2, h3, h4] →
      receiveMessage ⟨h0 :: h1 :: h2 :: h3 :: h4 :: rest, false, false⟩ =
        .error .errorProtocolViolation) := by
  refine ⟨?_, ?_, ?_⟩
  · intro s hs
    simp [receiveMessage, hs]
  · intro pending hshort
    simp [receiveMessage, streamRead_fail _ _ _ hshort]
  · intro h0 h1 h2 h3 h4 rest hle hshort
    have h5 : MessageHeaderSize ≤ (h0 :: h1 :: h2 :: h3 :: h4 :: rest).length := by
      simp [MessageHeaderSize]
    have htake : (h0 :: h1 :: h2 :: h3 :: h4 :: rest).take MessageHeaderSize =
        [h0, h1, h2, h3, h4] := rfl
    have hdrop : (h0 :: h1 :: h2 :: h3 :: h4 :: rest).drop MessageHeaderSize =
        rest := rfl
    have hdrop1 : ([h0, h1, h2, h3, h4] : List Nat).drop MessageSizeOffset =
        [h1, h2, h3, h4] := rfl
    have hnot : ¬ (MaxMessageSize < GetMessageSizeFromHeader [h1, h2, h3, h4]) :=
      not_lt.mpr hle
    simp [receiveMessage, streamRead_all _ _ _ h5, htake, hdrop, hdrop1, hnot,
      streamRead_fail _ _ _ hshort]

/-- Concrete instances of C5: an already-closed stream gives InvalidState, a
two-byte stream gives ProtocolViolation on the header read, and a frame
announcing one body byte over an empty remainder gives ProtocolViolation on
the body read. -/
theorem receiveMessage_failure_modes_witness :
    receiveMessage ⟨[], true, false⟩ = .error .errorInvalidState ∧
    receiveMessage ⟨[1, 0], false, false⟩ = .error .errorProtocolViolation ∧
    receiveMessage ⟨[9, 1, 0, 0, 0], false, false⟩ =
      .error .errorProtocolViolation :=
  ⟨receiveMessage_failure_modes.1 ⟨[], true, false⟩ rfl,
   receiveMessage_failure_modes.2.1 [1, 0] (by decide),
   receiveMessage_failure_modes.2.2 9 1 0 0 0 [] (by decide) (by decide)⟩

/-- C2: when the request loop dispatches a LocalService GetNeighbourNodes
request with the keepalive flag set and the dispatch succeeds, the loop still
sends the response for that request (with status OK and the echoed id) and
then terminates: every later receive outcome on the session is left
unconsumed, so later frames can come only from the installed per-session
change listener. -/
theorem keepalive_ends_message_loop
    (dispatch : Request → DispatchResult) (m : MessageWithHeader)
    (b : MessageBody) (r : GetNeighbourNodesRequest) (resp : Response)
    (more : List RecvResult)
    (hbody : m.body = some b)
    (hreq : b.request = some (.localService (.getNeighbourNodes r)))
    (hka : r.keepaliveAndSendUpdates = true)
    (hdisp : dispatch (.localService (.getNeighbourNodes r)) = .ok resp) :
    messageLoop dispatch (.ok m :: more) =
      ([responseMessage b.id { resp with status := .statusOk }], more) := by
  simp [messageLoop, loopStep, hbody, hreq, hdisp,
    isKeepAliveGetNeighbourNodes, hka]

/-- Concrete instance of C2: a keepalive GetNeighbourNodes request followed
by one more receive outcome; the loop answers it and leaves the rest
unread. -/
theorem keepalive_ends_message_loop_witness :
    messageLoop (fun _ => .ok { status := .statusOk, details := "" })
        (.ok { header := 0,
               body := some
                 { id := 42
                   request := some (.localService (.getNeighbourNodes ⟨true⟩))
                   response := none } } ::
          [.error (.errorConnection, "later")]) =
      ([responseMessage 42 { status := .statusOk, details := "" }],
       [.error (.errorConnection, "later")]) :=
  keepalive_ends_message_loop
    (fun _ => .ok { status := .statusOk, details := "" })
    { header := 0,
      body := some
        { id := 42
          request := some (.localService (.getNeighbourNodes ⟨true⟩))
          response := none } }
    { id := 42
      request := some (.localService (.getNeighbourNodes ⟨true⟩))
      response := none }
    ⟨true⟩ { status := .statusOk, details := "" }
    [.error (.errorConnection, "later")] rfl rfl rfl rfl

/-- C6: when the dispatched handler throws, the request loop catches the
exception and sends a response carrying the mapped StatusCode of a
LocationNetworkError, or ERROR_INTERNAL for any other exception, with the
exception message as details; the loop returns normally (the error never
propagates), terminating after the error response. -/
theorem dispatch_errors_become_error_responses
    (dispatch : Request → DispatchResult) (m : MessageWithHeader)
    (b : MessageBody) (req : Request) (more : List RecvResult)
    (hbody : m.body = some b) (hreq : b.request = some req) :
    (∀ code msg, dispatch req = .locNetError code msg →
      messageLoop dispatch (.ok m :: more) =
        ([responseMessage b.id
            { status := Converter.ToProtoBuf code, details := msg }], more)) ∧
    (∀ msg, dispatch req = .otherError msg →
      messageLoop dispatch (.ok m :: more) =
        ([responseMessage b.id
            { status := Status.errorInternal, details := msg }], more)) := by
  constructor
  · intro code msg hdisp
    simp [messageLoop, loopStep, hbody, hreq, hdisp]
  · intro msg hdisp
    simp [messageLoop, loopStep, hbody, hreq, hdisp]

/-- Concrete instances of C6: a thrown LocationNetworkError with code
Connection becomes a response with the mapped status, and a generic
exception becomes a response with status ERROR_INTERNAL. -/
theorem dispatch_errors_become_error_responses_witness :
    messageLoop (fun _ => .locNetError .errorConnection "down")
        [.ok { header := 0,
               body := some { id := 7, request := some (.remoteNode .getNodeCount),
                              response := none } }] =
      ([responseMessage 7
          { status := Converter.ToProtoBuf .errorConnection,
            details := "down" }], []) ∧
    messageLoop (fun _ => .otherError "boom")
        [.ok { header := 0,
               body := some { id := 7, request := some (.remoteNode .getNodeCount),
                              response := none } }] =
      ([responseMessage 7
          { status := Status.errorInternal, details := "boom" }], []) :=
  ⟨(dispatch_errors_become_error_responses
      (fun _ => .locNetError .errorConnection "down")
      { header := 0,
        body := some { id := 7, request := some (.remoteNode .getNodeCount),
                       response := none } }
      { id := 7, request := some (.remoteNode .getNodeCount), response := none }
      (.remoteNode .getNodeCount) [] rfl rfl).1 .errorConnection "down" rfl,
   (dispatch_errors_become_error_responses
      (fun _ => .otherError "boom")
      { header := 0,
        body := some { id := 7, request := some (.remoteNode .getNodeCount),
                       response := none } }
      { id := 7, request := some (.remoteNode .getNodeCount), response := none }
      (.remoteNode .getNodeCount) [] rfl rfl).2 "boom" rfl⟩

/-- C8: for every inbound message whose body carries a request payload, the
frame the loop iteration sends back is a response message carrying the same
correlation id as the request body, whatever the dispatch outcome (success
or any failure). -/
theorem response_echoes_correlation_id
    (dispatch : Request → DispatchResult) (m : MessageWithHeader)
    (b : MessageBody) (req : Request)
    (hbody : m.body = some b) (hreq : b.request = some req) :
    ∃ resp : Response,
      (loopStep dispatch (.ok m)).1 = responseMessage b.id resp := by
  cases hdisp : dispatch req with
  | ok resp =>
    exact ⟨{ resp with status := .statusOk },
      by simp [loopStep, hbody, hreq, hdisp]⟩
  | locNetError code msg =>
    exact ⟨{ status := Converter.ToProtoBuf code, details := msg },
      by simp [loopStep, hbody, hreq, hdisp]⟩
  | otherError msg =>
    exact ⟨{ status := Status.errorInternal, details := msg },
      by simp [loopStep, hbody, hreq, hdisp]⟩

/-- Concrete instance of C8: the response to a request with correlation id 5
carries id 5. -/
theorem response_echoes_correlation_id_witness :
    ∃ resp : Response,
      (loopStep (fun _ => .locNetError .errorInternal "x")
        (.ok { header := 0,
               body := some { id := 5, request := some .client,
                              response := none } })).1 =
        responseMessage 5 resp :=
  response_echoes_correlation_id (fun _ => .locNetError .errorInternal "x")
    { header := 0,
      body := some { id := 5, request := some .client, response := none } }
    { id := 5, request := some .client, response := none } .client rfl rfl

/-- C9: the change listener notifies only about Neighbour entries: for every
entry whose relation type is Colleague or Self, each of AddedNode,
UpdatedNode and RemovedNode dispatches no request on the session, makes no
RemoveListener call, and leaves the listener state unchanged. -/
theorem non_neighbour_changes_send_nothing
    (st : ChangeListenerState) (node : NodeDbEntry) (dispatchFails : Bool)
    (h : node.relationType = .colleague ∨ node.relationType = .self) :
    AddedNode st node dispatchFails = (st, [], []) ∧
    UpdatedNode st node dispatchFails = (st, [], []) ∧
    RemovedNode st node dispatchFails = (st, [], []) := by
  have hne : ¬ (node.relationType = NodeRelationType.neighbour) := by
    rcases h with h | h <;> simp [h]
  simp [AddedNode, UpdatedNode, RemovedNode, hne]

/-- A concrete database entry with relation type Colleague, input for the
C9 witness. -/
def sampleColleagueEntry : NodeDbEntry :=
  { profile :=
      { id := "node2", address := "10.0.0.2", nodePort := 16980, clientPort := 16981 }
    location := { latitude := 48, longitude := 20 }
    relationType := .colleague
    roleType := .initiator }

/-- Concrete instance of C9: a Colleague entry produces no notification from
any of the three callbacks, even when the dispatcher would fail. -/
theorem non_neighbour_changes_send_nothing_witness :
    AddedNode ⟨"10.0.0.9:4242"⟩ sampleColleagueEntry true =
      (⟨"10.0.0.9:4242"⟩, [], []) ∧
    UpdatedNode ⟨"10.0.0.9:4242"⟩ sampleColleagueEntry true =
      (⟨"10.0.0.9:4242"⟩, [], []) ∧
    RemovedNode ⟨"10.0.0.9:4242"⟩ sampleColleagueEntry true =
      (⟨"10.0.0.9:4242"⟩, [], []) :=
  non_neighbour_changes_send_nothing ⟨"10.0.0.9:4242"⟩ sampleColleagueEntry
    true (Or.inl rfl)

/-- Deregister on a listener whose stored session id is already empty does
nothing. -/
lemma deregister_of_empty (st : ChangeListenerState)
    (h : st.sessionId.isEmpty = true) : Deregister st = (st, []) := by
  simp [Deregister, h]

/-- Any number of Deregister calls on a listener whose stored session id is
already empty does nothing. -/
lemma deregisterTimes_of_empty (n : Nat) (st : ChangeListenerState)
    (h : st.sessionId.isEmpty = true) : deregisterTimes n st = (st, []) := by
  induction n with
  | zero => rfl
  | succ k ih => simp [deregisterTimes, deregister_of_empty st h, ih]

/-- Across any sequence of Deregister calls, RemoveListener is invoked at
most once. -/
lemma deregisterTimes_calls_le_one (n : Nat) (st : ChangeListenerState) :
    (deregisterTimes n st).2.length ≤ 1 := by
  cases n with
  | zero => simp [deregisterTimes]
  | succ k =>
    cases hEmpty : st.sessionId.isEmpty with
    | true => simp [deregisterTimes_of_empty _ _ hEmpty]
    | false =>
      have hD : Deregister st = (⟨""⟩, [st.sessionId]) := by
        simp [Deregister, hEmpty]
      have hrest : deregisterTimes k ⟨""⟩ = (⟨""⟩, []) :=
        deregisterTimes_of_empty k ⟨""⟩ rfl
      simp [deregisterTimes, hD, hrest]

/-- C10: Deregister is idempotent.  The first call on a listener with a
non-empty stored session id invokes RemoveListener exactly once, with that
id, and clears the id; afterwards (in particular from the destructor) any
further Deregister call performs no removal, and across any sequence of
calls RemoveListener is invoked at most once per listener lifetime. -/
theorem deregister_idempotent (st : ChangeListenerState)
    (h : st.sessionId.isEmpty = false) :
    Deregister st = (⟨""⟩, [st.sessionId]) ∧
    (Deregister st).1.sessionId.isEmpty = true ∧
    (∀ n, deregisterTimes n (Deregister st).1 = ((Deregister st).1, [])) ∧
    (∀ (st2 : ChangeListenerState) (n : Nat),
      (deregisterTimes n st2).2.length ≤ 1) := by
  have hD : Deregister st = (⟨""⟩, [st.sessionId]) := by
    simp [Deregister, h]
  refine ⟨hD, by rw [hD]; rfl, ?_, fun st2 n => deregisterTimes_calls_le_one n st2⟩
  intro n
  rw [hD]
  exact deregisterTimes_of_empty n ⟨""⟩ rfl

/-- Concrete instance of C10 at a listener registered for session
"1.2.3.4:56". -/
theorem deregister_idempotent_witness :
    Deregister ⟨"1.2.3.4:56"⟩ = (⟨""⟩, ["1.2.3.4:56"]) ∧
    deregisterTimes 3 (Deregister ⟨"1.2.3.4:56"⟩).1 =
      ((Deregister ⟨"1.2.3.4:56"⟩).1, []) ∧
    (deregisterTimes 2 ⟨"1.2.3.4:56"⟩).2.length ≤ 1 :=
  ⟨(deregister_idempotent ⟨"1.2.3.4:56"⟩ rfl).1,
   (deregister_idempotent ⟨"1.2.3.4:56"⟩ rfl).2.2.1 3,
   (deregister_idempotent ⟨"1.2.3.4:56"⟩ rfl).2.2.2 ⟨"1.2.3.4:56"⟩ 2⟩

end LocNet
